import Mathlib

/-!
Shallow embedding of `src/fetch_dataPdf.py` (PDF Content Extractor).

The script delegates all parsing to external libraries (PyMuPDF/`fitz`,
PIL, pandas, the Cohere client) and to the Streamlit UI framework.  We
model those libraries as oracles bundled in an `Env` structure: every
library call that can raise an exception is an `Except String` valued
field, the raised exception message being the `error` payload.  The
Python control flow of the script itself (the loops, the `try/except`
handlers, the truthiness tests, the tab bodies of `main`) is translated
directly; Streamlit side effects are recorded as a trace of `Ev` events.
-/

namespace PdfExtractor

/-- One entry of `page.get_images(full=True)`: only the cross reference
number `img[0]` is ever consumed by the script. -/
structure Img where
  xref : Nat
deriving DecidableEq

/-- One table detected by `page.find_tables()`: a `rows × cols` grid of
cell texts, read through `table.cell(row, col).text`. -/
structure PdfTable where
  rows : Nat
  cols : Nat
  cell : Nat → Nat → String

/-- An opaque decoded PIL image (`PIL.Image.open` result). -/
structure PILImage where
  tag : Nat
deriving DecidableEq

/-- One page of the fitz document.  Each library accessor may raise. -/
structure Page where
  get_text : Except String String
  get_images : Except String (List Img)
  find_tables : Except String (List PdfTable)

/-- A fitz document: its pages and the `extract_image` lookup by xref,
returning the raw image bytes `base_image["image"]`. -/
structure PdfDoc where
  pages : List Page
  extract_image : Nat → Except String (List Nat)

/-- The external-library oracle: `fitz.open(stream=..., filetype="pdf")`,
`PIL.Image.open`, PNG re-encoding `img.save(buf, format="PNG")`, and the
Cohere client's `co.summarize` (keyed by api key and input text). -/
structure Env where
  fitzOpen : List Nat → Except String PdfDoc
  imageOpen : List Nat → Except String PILImage
  pngBytes : PILImage → List Nat
  cohereSummarize : String → String → Except String String

/-- The Streamlit `UploadedFile`: a byte buffer with a read cursor. -/
structure UploadedFile where
  name : String
  bytes : List Nat
  pos : Nat

/-- `uploaded_file.read()`: returns the bytes from the cursor to the end
and leaves the cursor at the end of the buffer. -/
def fileRead (f : UploadedFile) : List Nat × UploadedFile :=
  (f.bytes.drop f.pos, { f with pos := f.bytes.length })

/-- `uploaded_file.seek(0)`: reset the read cursor. -/
def fileSeek0 (f : UploadedFile) : UploadedFile :=
  { f with pos := 0 }

/-- The pandas dataframe built by the script: column names plus rows of
string cells. -/
structure DataFrame where
  columns : List String
  rows : List (List String)
deriving DecidableEq

/-- One element of the list built by `extract_tables_from_pdf_pymupdf`:
the dict `{"page": ..., "table_number": ..., "dataframe": ...}`. -/
structure TableEntry where
  page : Nat
  table_number : Nat
  dataframe : DataFrame
deriving DecidableEq

/-- Which extraction pass reads the uploaded file. -/
inductive PassKind where
  | text
  | images
  | tables
deriving DecidableEq

/-- Observable events of one script run: file-cursor operations, the
Streamlit widgets that get rendered, and the outbound Cohere call. -/
inductive Ev where
  | passRead (k : PassKind) (pos : Nat)
  | seek (pos : Nat)
  | uiError (msg : String)
  | uiInfo (msg : String)
  | uiWrite (msg : String)
  | uiHeader (msg : String)
  | uiSubheader (msg : String)
  | uiTextArea (label content : String)
  | uiImage (caption : String) (img : PILImage)
  | uiDataframe (df : DataFrame)
  | uiDownload (label : String) (data : String) (fileName : String)
  | uiDownloadBytes (label : String) (data : List Nat) (fileName : String)
  | cohereCall (key text : String)
  | uiSpinner (msg : String)
deriving DecidableEq

/-! ### `extract_text_from_pdf` (src lines 12-23) -/

/-- The page loop of `extract_text_from_pdf`: `text += page.get_text()`. -/
def textLoop : List Page → String → Except String String
  | [], acc => .ok acc
  | p :: ps, acc =>
    match p.get_text with
    | .error e => .error e
    | .ok t => textLoop ps (acc ++ t)

/-- The `try` body of `extract_text_from_pdf` on the bytes read from the
uploaded file. -/
def extractTextCore (env : Env) (bs : List Nat) : Except String String :=
  match env.fitzOpen bs with
  | .error e => .error e
  | .ok doc => textLoop doc.pages ""

/-- `extract_text_from_pdf(pdf_file)`: reads the file, runs the `try`
body, and on exception shows `st.error` and returns `None`. -/
def extract_text_from_pdf (env : Env) (f : UploadedFile) :
    UploadedFile × List Ev × Option String :=
  let r := fileRead f
  match extractTextCore env r.1 with
  | .ok t => (r.2, [Ev.passRead PassKind.text f.pos], some t)
  | .error e =>
      (r.2, [Ev.passRead PassKind.text f.pos,
             Ev.uiError ("Error extracting text: " ++ e)], none)

/-! ### `extract_images_from_pdf` (src lines 25-46) -/

/-- Inner loop over `enumerate(page.get_images(full=True))`: extract the
raw bytes by xref, decode with PIL, and append the captioned image. -/
def imgLoopPage (env : Env) (doc : PdfDoc) (pn : Nat) :
    List Img → Nat → List (String × PILImage) →
    Except String (List (String × PILImage))
  | [], _, acc => .ok acc
  | im :: rest, k, acc =>
    match doc.extract_image im.xref with
    | .error e => .error e
    | .ok ib =>
      match env.imageOpen ib with
      | .error e => .error e
      | .ok pil =>
          imgLoopPage env doc pn rest (k + 1)
            (acc ++ [(s!"Page {pn + 1}, Image {k + 1}", pil)])

/-- Outer loop of `extract_images_from_pdf` over the document pages. -/
def imgLoop (env : Env) (doc : PdfDoc) :
    List Page → Nat → List (String × PILImage) →
    Except String (List (String × PILImage))
  | [], _, acc => .ok acc
  | p :: ps, pn, acc =>
    match p.get_images with
    | .error e => .error e
    | .ok l =>
      match imgLoopPage env doc pn l 0 acc with
      | .error e => .error e
      | .ok acc2 => imgLoop env doc ps (pn + 1) acc2

/-- The `try` body of `extract_images_from_pdf` on the bytes read. -/
def extractImagesCore (env : Env) (bs : List Nat) :
    Except String (List (String × PILImage)) :=
  match env.fitzOpen bs with
  | .error e => .error e
  | .ok doc => imgLoop env doc doc.pages 0 []

/-- `extract_images_from_pdf(pdf_file)`: on exception shows `st.error`
and returns the empty list. -/
def extract_images_from_pdf (env : Env) (f : UploadedFile) :
    UploadedFile × List Ev × List (String × PILImage) :=
  let r := fileRead f
  match extractImagesCore env r.1 with
  | .ok l => (r.2, [Ev.passRead PassKind.images f.pos], l)
  | .error e =>
      (r.2, [Ev.passRead PassKind.images f.pos,
             Ev.uiError ("Error extracting images: " ++ e)], [])

/-! ### `extract_tables_from_pdf_pymupdf` (src lines 48-87) -/

/-- Python `str.strip()` whitespace test (space, tab, newline, carriage
return, vertical tab, form feed). -/
def isSpaceChar (c : Char) : Bool :=
  c == ' ' || c == '\t' || c == '\n' || c == '\r' || c == '\x0b' || c == '\x0c'

/-- Python `s.strip()`. -/
def pyStrip (s : String) : String :=
  String.mk (((s.data.dropWhile isSpaceChar).reverse.dropWhile isSpaceChar).reverse)

/-- The `rows_data` grid: `table.cell(row, col).text` for `row` in
`range(table.rows)` and `col` in `range(table.cols)`. -/
def buildRowsData (t : PdfTable) : List (List String) :=
  (List.range t.rows).map (fun r => (List.range t.cols).map (fun c => t.cell r c))

/-- The header heuristic `all(cell and cell.strip() for cell in rows_data[0])`. -/
def headerCond (r0 : List String) : Bool :=
  r0.all (fun c => !(c == "") && !(pyStrip c == ""))

/-- The generic column names `[f"Column {i+1}" for i in range(n)]`. -/
def genericCols (n : Nat) : List String :=
  (List.range n).map (fun i => s!"Column {i + 1}")

/-- The per-table body of the loop in `extract_tables_from_pdf_pymupdf`:
builds the dataframe entry, or nothing when the grid has no rows. -/
def tableToEntry (pageNum tnum : Nat) (t : PdfTable) : Option TableEntry :=
  match buildRowsData t with
  | [] => none
  | r0 :: rest =>
    if headerCond r0 then
      some ⟨pageNum, tnum, ⟨r0, rest⟩⟩
    else
      some ⟨pageNum, tnum, ⟨genericCols r0.length, r0 :: rest⟩⟩

/-- Loop over `enumerate(tabs.tables)` for one page (0-based page `pn`,
0-based running table index `i`). -/
def pageEntriesGo (pn : Nat) : List PdfTable → Nat → List TableEntry
  | [], _ => []
  | t :: ts, i =>
    match tableToEntry (pn + 1) (i + 1) t with
    | some e => e :: pageEntriesGo pn ts (i + 1)
    | none => pageEntriesGo pn ts (i + 1)

/-- The entries contributed by one page's detected tables. -/
def pageEntries (pn : Nat) (tabs : List PdfTable) : List TableEntry :=
  pageEntriesGo pn tabs 0

/-- The page loop of `extract_tables_from_pdf_pymupdf`. -/
def tabLoop : List Page → Nat → List TableEntry → Except String (List TableEntry)
  | [], _, acc => .ok acc
  | p :: ps, pn, acc =>
    match p.find_tables with
    | .error e => .error e
    | .ok tabs => tabLoop ps (pn + 1) (acc ++ pageEntries pn tabs)

/-- The `try` body of `extract_tables_from_pdf_pymupdf` on the bytes read. -/
def extractTablesCore (env : Env) (bs : List Nat) : Except String (List TableEntry) :=
  match env.fitzOpen bs with
  | .error e => .error e
  | .ok doc => tabLoop doc.pages 0 []

/-- `extract_tables_from_pdf_pymupdf(pdf_file)`: on exception shows
`st.error` and returns the empty list. -/
def extract_tables_from_pdf_pymupdf (env : Env) (f : UploadedFile) :
    UploadedFile × List Ev × List TableEntry :=
  let r := fileRead f
  match extractTablesCore env r.1 with
  | .ok l => (r.2, [Ev.passRead PassKind.tables f.pos], l)
  | .error e =>
      (r.2, [Ev.passRead PassKind.tables f.pos,
             Ev.uiError ("Error extracting tables with PyMuPDF: " ++ e)], [])

/-! ### `get_cohere_summary` (src lines 89-103) -/

/-- `get_cohere_summary(text, api_key)`: performs the client call and on
exception shows `st.error` and returns `None`. -/
def get_cohere_summary (env : Env) (text api_key : String) :
    List Ev × Option String :=
  match env.cohereSummarize api_key text with
  | .ok s => ([Ev.cohereCall api_key text], some s)
  | .error e =>
      ([Ev.cohereCall api_key text,
        Ev.uiError ("Error with Cohere API: " ++ e)], none)

/-! ### CSV serialization (`df.to_csv(index=False)`) and a CSV reader

`DataFrame.to_csv(index=False)` writes the header row followed by the
data rows, each terminated by a newline, with csv `QUOTE_MINIMAL`
quoting: a field is quoted (with internal `"` doubled) exactly when it
contains a delimiter, a quote character, or a line-break character.
`parseCsv` is the reader used to state the round-trip property of the
spec ("downloaded CSV content round-trips the displayed table"); it is
a standard RFC-4180-style CSV reader, written fuel-recursively. -/

/-- Characters that force a field to be quoted under minimal quoting. -/
def isCsvSpecial (c : Char) : Bool :=
  c == ',' || c == '"' || c == '\n' || c == '\r'

/-- Double every quote character of a field body. -/
def escapeInner : List Char → List Char
  | [] => []
  | c :: cs =>
    if c == '"' then '"' :: '"' :: escapeInner cs else c :: escapeInner cs

/-- Serialize one field with minimal quoting. -/
def escapeField (f : List Char) : List Char :=
  if f.any isCsvSpecial then '"' :: (escapeInner f ++ ['"']) else f

/-- Serialize one record: fields separated by commas. -/
def serRow : List (List Char) → List Char
  | [] => []
  | [c] => escapeField c
  | c :: c2 :: cs => escapeField c ++ ',' :: serRow (c2 :: cs)

/-- Serialize all records, each terminated by a newline. -/
def serCsv : List (List (List Char)) → List Char
  | [] => []
  | r :: rs => serRow r ++ '\n' :: serCsv rs

/-- The CSV text of `df.to_csv(index=False)`: header row then data rows. -/
def dfToCsv (df : DataFrame) : String :=
  String.mk (serCsv ((df.columns :: df.rows).map (fun r => r.map String.data)))

/-- Read an unquoted field: everything up to a comma or newline. -/
def takeUnquoted : List Char → List Char × List Char
  | [] => ([], [])
  | c :: cs =>
    if c == ',' || c == '\n' then ([], c :: cs)
    else
      let r := takeUnquoted cs
      (c :: r.1, r.2)

/-- Read the body of a quoted field (the opening quote already
consumed): `""` is an escaped quote, a single `"` closes the field. -/
def takeQuoted : List Char → List Char × List Char
  | [] => ([], [])
  | c :: cs =>
    if c == '"' then
      match cs with
      | '"' :: cs2 =>
          let r := takeQuoted cs2
          ('"' :: r.1, r.2)
      | _ => ([], cs)
    else
      let r := takeQuoted cs
      (c :: r.1, r.2)

/-- Read one field, quoted or not. -/
def parseField (l : List Char) : List Char × List Char :=
  match l with
  | [] => ([], [])
  | c :: cs => if c == '"' then takeQuoted cs else takeUnquoted (c :: cs)

/-- Read one record (fields separated by commas, ended by a newline or
the end of input).  `fuel` bounds the number of fields. -/
def parseRecord : Nat → List Char → List (List Char) × List Char
  | 0, l => ([], l)
  | fuel + 1, l =>
    let fr := parseField l
    match fr.2 with
    | ',' :: r =>
        let rec2 := parseRecord fuel r
        (fr.1 :: rec2.1, rec2.2)
    | '\n' :: r => ([fr.1], r)
    | _ => ([fr.1], fr.2)

/-- Read all records.  `fuel` bounds the number of records. -/
def parseCsvGo : Nat → List Char → List (List (List Char))
  | 0, _ => []
  | fuel + 1, l =>
    match l with
    | [] => []
    | c :: cs =>
        let pr := parseRecord ((c :: cs).length + 1) (c :: cs)
        pr.1 :: parseCsvGo fuel pr.2

/-- Parse a CSV document into its records of string fields. -/
def parseCsv (s : String) : List (List String) :=
  (parseCsvGo (s.data.length + 1) s.data).map (fun r => r.map String.mk)

/-! ### `main` (src lines 105-189) -/

/-- The widgets rendered for one extracted image inside the `Images`
tab: the image with its caption and a per-image PNG download button. -/
def renderImage (nm : String) (env : Env) (pr : String × PILImage) : List Ev :=
  [Ev.uiImage pr.1 pr.2,
   Ev.uiDownloadBytes ("Download " ++ pr.1) (env.pngBytes pr.2)
     (nm ++ "_" ++ pr.1 ++ ".png")]

/-- The subheader text `f"Table {table_num} (Page {page_num})"`. -/
def tableSubheader (e : TableEntry) : String :=
  let p := e.page
  let n := e.table_number
  s!"Table {n} (Page {p})"

/-- The download-button label for one table. -/
def tableLabel (e : TableEntry) : String :=
  let p := e.page
  let n := e.table_number
  s!"Download Table {n} from Page {p} as CSV"

/-- The download file name for one table. -/
def tableFname (nm : String) (e : TableEntry) : String :=
  let p := e.page
  let n := e.table_number
  s!"{nm}_page{p}_table_{n}.csv"

/-- The widgets rendered for one table entry inside the `Tables` tab:
subheader, the dataframe, and the CSV download button whose payload is
`df.to_csv(index=False)`. -/
def renderTable (nm : String) (e : TableEntry) : List Ev :=
  [Ev.uiSubheader (tableSubheader e),
   Ev.uiDataframe e.dataframe,
   Ev.uiDownload (tableLabel e) (dfToCsv e.dataframe) (tableFname nm e)]

/-- Tab 1 (`Text`): header, text extraction, and if the result is truthy
the text area plus the download button. -/
def tab1Run (env : Env) (f : UploadedFile) : UploadedFile × List Ev :=
  let r := extract_text_from_pdf env f
  let body :=
    match r.2.2 with
    | some t =>
        if t == "" then []
        else [Ev.uiTextArea "Text Content" t,
              Ev.uiDownload "Download Text" t (f.name ++ "_text.txt")]
    | none => []
  (r.1, Ev.uiHeader "Extracted Text" :: (r.2.1 ++ body))

/-- Tab 2 (`Images`): header, `seek(0)`, image extraction, and either
the rendered image grid or the "no images" info message. -/
def tab2Run (env : Env) (f : UploadedFile) : UploadedFile × List Ev :=
  let f1 := fileSeek0 f
  let r := extract_images_from_pdf env f1
  let body :=
    if r.2.2.isEmpty then [Ev.uiInfo "No images found in the PDF."]
    else (r.2.2.map (renderImage f.name env)).flatten
  (r.1, Ev.uiHeader "Extracted Images" :: Ev.seek 0 :: (r.2.1 ++ body))

/-- Tab 3 (`Tables`): header, `seek(0)`, table extraction, and either
the rendered tables or the fallback messages. -/
def tab3Run (env : Env) (f : UploadedFile) : UploadedFile × List Ev :=
  let f1 := fileSeek0 f
  let r := extract_tables_from_pdf_pymupdf env f1
  let body :=
    if r.2.2.isEmpty then
      [Ev.uiInfo "No tables found in the PDF. Table detection may not work on all PDF types.",
       Ev.uiWrite "For complex tables, you might need to use alternative methods."]
    else (r.2.2.map (renderTable f.name)).flatten
  (r.1, Ev.uiHeader "Extracted Tables" :: Ev.seek 0 :: (r.2.1 ++ body))

/-- Tab 4 (`Summary`): with a truthy api key, `seek(0)`, a fresh text
extraction, and when the text is truthy the spinner, the Cohere call and
(on success) the summary plus its download button; with no key, only the
prompt message. -/
def tab4Run (env : Env) (f : UploadedFile) (key : String) :
    UploadedFile × List Ev :=
  if key == "" then
    (f, [Ev.uiHeader "Document Summary",
         Ev.uiInfo "Enter a Cohere API key in the sidebar to generate a summary."])
  else
    let f1 := fileSeek0 f
    let r := extract_text_from_pdf env f1
    let body :=
      match r.2.2 with
      | some t =>
          if t == "" then []
          else
            Ev.uiSpinner "Generating summary with Cohere..." ::
            (let s := get_cohere_summary env t key
             s.1 ++
             (match s.2 with
              | some sm =>
                  [Ev.uiWrite sm,
                   Ev.uiDownload "Download Summary" sm (f.name ++ "_summary.txt")]
              | none => []))
      | none => []
    (r.1, Ev.uiHeader "Document Summary" :: Ev.seek 0 :: (r.2.1 ++ body))

/-- `main()`: with no upload nothing renders; with an upload (its name
and bytes, cursor initially at 0) the four tabs run in order, threading
the uploaded file's cursor. -/
def main (env : Env) (cohere_api_key : String) (upload : Option (String × List Nat)) :
    List Ev :=
  match upload with
  | none => []
  | some pr =>
    let f0 : UploadedFile := ⟨pr.1, pr.2, 0⟩
    let t1 := tab1Run env f0
    let t2 := tab2Run env t1.1
    let t3 := tab3Run env t2.1
    let t4 := tab4Run env t3.1 cohere_api_key
    t1.2 ++ t2.2 ++ t3.2 ++ t4.2

/-! ### Event classifiers used by the theorems -/

/-- Is this event the outbound Cohere network call? -/
def isCohere : Ev → Bool
  | Ev.passRead _ _ => false
  | Ev.seek _ => false
  | Ev.uiError _ => false
  | Ev.uiInfo _ => false
  | Ev.uiWrite _ => false
  | Ev.uiHeader _ => false
  | Ev.uiSubheader _ => false
  | Ev.uiTextArea _ _ => false
  | Ev.uiImage _ _ => false
  | Ev.uiDataframe _ => false
  | Ev.uiDownload _ _ _ => false
  | Ev.uiDownloadBytes _ _ _ => false
  | Ev.cohereCall _ _ => true
  | Ev.uiSpinner _ => false

/-- Is this event a file-cursor operation (a read by an extraction pass,
or an explicit `seek`)? -/
def isCursorEv : Ev → Bool
  | Ev.passRead _ _ => true
  | Ev.seek _ => true
  | Ev.uiError _ => false
  | Ev.uiInfo _ => false
  | Ev.uiWrite _ => false
  | Ev.uiHeader _ => false
  | Ev.uiSubheader _ => false
  | Ev.uiTextArea _ _ => false
  | Ev.uiImage _ _ => false
  | Ev.uiDataframe _ => false
  | Ev.uiDownload _ _ _ => false
  | Ev.uiDownloadBytes _ _ _ => false
  | Ev.cohereCall _ _ => false
  | Ev.uiSpinner _ => false

/-- Is this event an image widget? -/
def isImageEv : Ev → Bool
  | Ev.passRead _ _ => false
  | Ev.seek _ => false
  | Ev.uiError _ => false
  | Ev.uiInfo _ => false
  | Ev.uiWrite _ => false
  | Ev.uiHeader _ => false
  | Ev.uiSubheader _ => false
  | Ev.uiTextArea _ _ => false
  | Ev.uiImage _ _ => true
  | Ev.uiDataframe _ => false
  | Ev.uiDownload _ _ _ => false
  | Ev.uiDownloadBytes _ _ _ => false
  | Ev.cohereCall _ _ => false
  | Ev.uiSpinner _ => false

/-- Is this event a dataframe widget? -/
def isDataframeEv : Ev → Bool
  | Ev.passRead _ _ => false
  | Ev.seek _ => false
  | Ev.uiError _ => false
  | Ev.uiInfo _ => false
  | Ev.uiWrite _ => false
  | Ev.uiHeader _ => false
  | Ev.uiSubheader _ => false
  | Ev.uiTextArea _ _ => false
  | Ev.uiImage _ _ => false
  | Ev.uiDataframe _ => true
  | Ev.uiDownload _ _ _ => false
  | Ev.uiDownloadBytes _ _ _ => false
  | Ev.cohereCall _ _ => false
  | Ev.uiSpinner _ => false

/-- The captions `"Page {pn+1}, Image {k+1}"` for `n` images on 0-based
page `pn`, the first having 0-based index `k` on the page. -/
def capsFrom (pn k : Nat) : Nat → List String
  | 0 => []
  | m + 1 => s!"Page {pn + 1}, Image {k + 1}" :: capsFrom pn (k + 1) m

/-- The expected caption list for a whole document, pages and per-page
image indices both ascending (`pn` the 0-based number of the first
page). -/
def capList : List Page → Nat → List String
  | [], _ => []
  | p :: ps, pn =>
    (match p.get_images with
     | .ok l => capsFrom pn 0 l.length
     | .error _ => []) ++ capList ps (pn + 1)

/-! ### Concrete fixtures (sample oracle behaviours used as witnesses) -/

/-- A 2×2 table whose first row is fully non-blank (header branch); its
data row exercises CSV quoting (a comma and a quote). -/
def tCommaW : PdfTable :=
  ⟨2, 2, fun r c =>
    if r == 0 then (if c == 0 then "a" else "b")
    else (if c == 0 then "1,5" else "x\"y")⟩

/-- A 1×2 table whose first row has a blank cell (generic-columns branch). -/
def tGenericW : PdfTable :=
  ⟨1, 2, fun _ c => if c == 0 then " " else "x"⟩

/-- A detected table whose cell grid has zero rows. -/
def tZeroW : PdfTable := ⟨0, 2, fun _ _ => "z"⟩

/-- First sample page: text, one image, three detected tables. -/
def pageW : Page :=
  { get_text := .ok "Hello ",
    get_images := .ok [⟨7⟩],
    find_tables := .ok [tCommaW, tZeroW, tGenericW] }

/-- Second sample page: text, one image, no tables. -/
def pageW2 : Page :=
  { get_text := .ok "world",
    get_images := .ok [⟨9⟩],
    find_tables := .ok [] }

/-- Sample document with two pages. -/
def docW : PdfDoc :=
  { pages := [pageW, pageW2], extract_image := fun x => .ok [x] }

/-- Oracle where every library call succeeds on `docW`. -/
def envW : Env :=
  { fitzOpen := fun _ => .ok docW,
    imageOpen := fun b => .ok ⟨b.length⟩,
    pngBytes := fun i => [i.tag],
    cohereSummarize := fun _ t => .ok ("S:" ++ t) }

/-- Oracle where every library call raises. -/
def envErrW : Env :=
  { fitzOpen := fun _ => .error "boom",
    imageOpen := fun _ => .error "img",
    pngBytes := fun _ => [],
    cohereSummarize := fun _ _ => .error "net" }

/-- A page with no text, no embedded images and no detectable tables. -/
def pageEmptyW : Page :=
  { get_text := .ok "", get_images := .ok [], find_tables := .ok [] }

/-- A document whose single page has no images and no tables. -/
def docEmptyW : PdfDoc :=
  { pages := [pageEmptyW], extract_image := fun _ => .error "no" }

/-- Oracle whose document has no images and no tables. -/
def envEmptyW : Env :=
  { fitzOpen := fun _ => .ok docEmptyW,
    imageOpen := fun _ => .error "img",
    pngBytes := fun _ => [],
    cohereSummarize := fun _ _ => .error "net" }

/-- A sample uploaded file. -/
def fileW : UploadedFile := ⟨"doc.pdf", [0], 0⟩

/-! ## Theorems -/

/-- C1: the claim says the text path substitutes the empty string on an
exception, but `extract_text_from_pdf` returns `None` (its very last
line is `return None`): with an oracle whose `fitz.open` raises `boom`,
the result is `none`, not `some ""` (the error is still displayed). -/
theorem C1_counterexample :
    (extract_text_from_pdf envErrW fileW).2.2 = none ∧
    (extract_text_from_pdf envErrW fileW).2.2 ≠ some "" ∧
    Ev.uiError "Error extracting text: boom" ∈ (extract_text_from_pdf envErrW fileW).2.1 := by
  decide

/-- C1 (amended): if the `try` body of an extraction raises, the
function displays `st.error` with the message and returns its sentinel:
`None` for text extraction, the empty list for image and table
extraction. -/
theorem C1_error_sentinels (env : Env) (f1 f2 f3 : UploadedFile) (e1 e2 e3 : String)
    (h1 : extractTextCore env (f1.bytes.drop f1.pos) = .error e1)
    (h2 : extractImagesCore env (f2.bytes.drop f2.pos) = .error e2)
    (h3 : extractTablesCore env (f3.bytes.drop f3.pos) = .error e3) :
    ((extract_text_from_pdf env f1).2.2 = none ∧
     Ev.uiError ("Error extracting text: " ++ e1) ∈ (extract_text_from_pdf env f1).2.1) ∧
    ((extract_images_from_pdf env f2).2.2 = [] ∧
     Ev.uiError ("Error extracting images: " ++ e2) ∈ (extract_images_from_pdf env f2).2.1) ∧
    ((extract_tables_from_pdf_pymupdf env f3).2.2 = [] ∧
     Ev.uiError ("Error extracting tables with PyMuPDF: " ++ e3) ∈
       (extract_tables_from_pdf_pymupdf env f3).2.1) := by
  unfold extract_text_from_pdf extract_images_from_pdf extract_tables_from_pdf_pymupdf fileRead
  simp [h1, h2, h3]

/-- C1 witness: the amended statement applied to the raising oracle. -/
theorem C1_error_sentinels_witness :
    ((extract_text_from_pdf envErrW fileW).2.2 = none ∧
     Ev.uiError ("Error extracting text: " ++ "boom") ∈ (extract_text_from_pdf envErrW fileW).2.1) ∧
    ((extract_images_from_pdf envErrW fileW).2.2 = [] ∧
     Ev.uiError ("Error extracting images: " ++ "boom") ∈ (extract_images_from_pdf envErrW fileW).2.1) ∧
    ((extract_tables_from_pdf_pymupdf envErrW fileW).2.2 = [] ∧
     Ev.uiError ("Error extracting tables with PyMuPDF: " ++ "boom") ∈
       (extract_tables_from_pdf_pymupdf envErrW fileW).2.1) :=
  C1_error_sentinels envErrW fileW fileW fileW "boom" "boom" "boom" rfl rfl rfl

/-- C2: every exception of a library call inside
`extract_text_from_pdf`, `extract_images_from_pdf`,
`extract_tables_from_pdf_pymupdf` or `get_cohere_summary` is caught by
the function's own `except` handler: the function still returns (its
sentinel value) and the error message is shown with `st.error` — the
exception never escapes the function (all four embedded functions are
total, so no exception channel leaves them). -/
theorem C2_exceptions_caught (env : Env) (f1 f2 f3 : UploadedFile)
    (t key e1 e2 e3 e4 : String)
    (h1 : extractTextCore env (f1.bytes.drop f1.pos) = .error e1)
    (h2 : extractImagesCore env (f2.bytes.drop f2.pos) = .error e2)
    (h3 : extractTablesCore env (f3.bytes.drop f3.pos) = .error e3)
    (h4 : env.cohereSummarize key t = .error e4) :
    (extract_text_from_pdf env f1 =
      ({ f1 with pos := f1.bytes.length },
       [Ev.passRead PassKind.text f1.pos, Ev.uiError ("Error extracting text: " ++ e1)],
       none)) ∧
    (extract_images_from_pdf env f2 =
      ({ f2 with pos := f2.bytes.length },
       [Ev.passRead PassKind.images f2.pos, Ev.uiError ("Error extracting images: " ++ e2)],
       [])) ∧
    (extract_tables_from_pdf_pymupdf env f3 =
      ({ f3 with pos := f3.bytes.length },
       [Ev.passRead PassKind.tables f3.pos,
        Ev.uiError ("Error extracting tables with PyMuPDF: " ++ e3)],
       [])) ∧
    (get_cohere_summary env t key =
      ([Ev.cohereCall key t, Ev.uiError ("Error with Cohere API: " ++ e4)], none)) := by
  unfold extract_text_from_pdf extract_images_from_pdf extract_tables_from_pdf_pymupdf
    get_cohere_summary fileRead
  simp [h1, h2, h3, h4]

/-- C2 witness: the raising oracle exercises all four handlers. -/
theorem C2_exceptions_caught_witness :
    (extract_text_from_pdf envErrW fileW =
      ({ fileW with pos := fileW.bytes.length },
       [Ev.passRead PassKind.text fileW.pos, Ev.uiError ("Error extracting text: " ++ "boom")],
       none)) ∧
    (extract_images_from_pdf envErrW fileW =
      ({ fileW with pos := fileW.bytes.length },
       [Ev.passRead PassKind.images fileW.pos, Ev.uiError ("Error extracting images: " ++ "boom")],
       [])) ∧
    (extract_tables_from_pdf_pymupdf envErrW fileW =
      ({ fileW with pos := fileW.bytes.length },
       [Ev.passRead PassKind.tables fileW.pos,
        Ev.uiError ("Error extracting tables with PyMuPDF: " ++ "boom")],
       [])) ∧
    (get_cohere_summary envErrW "text" "key" =
      ([Ev.cohereCall "key" "text", Ev.uiError ("Error with Cohere API: " ++ "net")], none)) :=
  C2_exceptions_caught envErrW fileW fileW fileW "text" "key" "boom" "boom" "boom" "net"
    rfl rfl rfl rfl

/-! ### Characterization of the extraction wrappers -/

theorem extract_text_ok (env : Env) (f : UploadedFile) (t : String)
    (h : extractTextCore env (f.bytes.drop f.pos) = .ok t) :
    extract_text_from_pdf env f =
      ({ f with pos := f.bytes.length }, [Ev.passRead PassKind.text f.pos], some t) := by
  unfold extract_text_from_pdf fileRead
  simp [h]

theorem extract_text_err (env : Env) (f : UploadedFile) (e : String)
    (h : extractTextCore env (f.bytes.drop f.pos) = .error e) :
    extract_text_from_pdf env f =
      ({ f with pos := f.bytes.length },
       [Ev.passRead PassKind.text f.pos, Ev.uiError ("Error extracting text: " ++ e)],
       none) := by
  unfold extract_text_from_pdf fileRead
  simp [h]

theorem extract_text_seek_ok (env : Env) (f : UploadedFile) (t : String)
    (h : extractTextCore env f.bytes = .ok t) :
    extract_text_from_pdf env (fileSeek0 f) =
      (⟨f.name, f.bytes, f.bytes.length⟩, [Ev.passRead PassKind.text 0], some t) := by
  unfold extract_text_from_pdf fileRead fileSeek0
  simp [h]

theorem extract_text_seek_err (env : Env) (f : UploadedFile) (e : String)
    (h : extractTextCore env f.bytes = .error e) :
    extract_text_from_pdf env (fileSeek0 f) =
      (⟨f.name, f.bytes, f.bytes.length⟩,
       [Ev.passRead PassKind.text 0, Ev.uiError ("Error extracting text: " ++ e)],
       none) := by
  unfold extract_text_from_pdf fileRead fileSeek0
  simp [h]

theorem extract_images_ok (env : Env) (f : UploadedFile) (l : List (String × PILImage))
    (h : extractImagesCore env (f.bytes.drop f.pos) = .ok l) :
    extract_images_from_pdf env f =
      ({ f with pos := f.bytes.length }, [Ev.passRead PassKind.images f.pos], l) := by
  unfold extract_images_from_pdf fileRead
  simp [h]

theorem extract_images_seek_ok (env : Env) (f : UploadedFile) (l : List (String × PILImage))
    (h : extractImagesCore env f.bytes = .ok l) :
    extract_images_from_pdf env (fileSeek0 f) =
      (⟨f.name, f.bytes, f.bytes.length⟩, [Ev.passRead PassKind.images 0], l) := by
  unfold extract_images_from_pdf fileRead fileSeek0
  simp [h]

theorem extract_images_seek_err (env : Env) (f : UploadedFile) (e : String)
    (h : extractImagesCore env f.bytes = .error e) :
    extract_images_from_pdf env (fileSeek0 f) =
      (⟨f.name, f.bytes, f.bytes.length⟩,
       [Ev.passRead PassKind.images 0, Ev.uiError ("Error extracting images: " ++ e)],
       []) := by
  unfold extract_images_from_pdf fileRead fileSeek0
  simp [h]

theorem extract_tables_ok (env : Env) (f : UploadedFile) (l : List TableEntry)
    (h : extractTablesCore env (f.bytes.drop f.pos) = .ok l) :
    extract_tables_from_pdf_pymupdf env f =
      ({ f with pos := f.bytes.length }, [Ev.passRead PassKind.tables f.pos], l) := by
  unfold extract_tables_from_pdf_pymupdf fileRead
  simp [h]

theorem extract_tables_seek_ok (env : Env) (f : UploadedFile) (l : List TableEntry)
    (h : extractTablesCore env f.bytes = .ok l) :
    extract_tables_from_pdf_pymupdf env (fileSeek0 f) =
      (⟨f.name, f.bytes, f.bytes.length⟩, [Ev.passRead PassKind.tables 0], l) := by
  unfold extract_tables_from_pdf_pymupdf fileRead fileSeek0
  simp [h]

theorem extract_tables_seek_err (env : Env) (f : UploadedFile) (e : String)
    (h : extractTablesCore env f.bytes = .error e) :
    extract_tables_from_pdf_pymupdf env (fileSeek0 f) =
      (⟨f.name, f.bytes, f.bytes.length⟩,
       [Ev.passRead PassKind.tables 0,
        Ev.uiError ("Error extracting tables with PyMuPDF: " ++ e)],
       []) := by
  unfold extract_tables_from_pdf_pymupdf fileRead fileSeek0
  simp [h]

/-! ### Filter lemmas about the tab traces -/

theorem filter_flatten_nil (p : Ev → Bool) (L : List (List Ev))
    (h : ∀ l ∈ L, l.filter p = []) : L.flatten.filter p = [] := by
  induction L with
  | nil => rfl
  | cons a L ih =>
      simp only [List.flatten_cons, List.filter_append, h a (by simp)]
      simpa using ih (fun l hl => h l (by simp [hl]))

theorem renderImages_filter_cohere (nm : String) (env : Env) (l : List (String × PILImage)) :
    ((l.map (renderImage nm env)).flatten).filter isCohere = [] := by
  apply filter_flatten_nil
  intro x hx
  obtain ⟨pr, _, rfl⟩ := List.mem_map.mp hx
  rfl

theorem renderTables_filter_cohere (nm : String) (l : List TableEntry) :
    ((l.map (renderTable nm)).flatten).filter isCohere = [] := by
  apply filter_flatten_nil
  intro x hx
  obtain ⟨e, _, rfl⟩ := List.mem_map.mp hx
  rfl

theorem renderImages_filter_cursor (nm : String) (env : Env) (l : List (String × PILImage)) :
    ((l.map (renderImage nm env)).flatten).filter isCursorEv = [] := by
  apply filter_flatten_nil
  intro x hx
  obtain ⟨pr, _, rfl⟩ := List.mem_map.mp hx
  rfl

theorem renderTables_filter_cursor (nm : String) (l : List TableEntry) :
    ((l.map (renderTable nm)).flatten).filter isCursorEv = [] := by
  apply filter_flatten_nil
  intro x hx
  obtain ⟨e, _, rfl⟩ := List.mem_map.mp hx
  rfl

theorem renderTables_filter_image (nm : String) (l : List TableEntry) :
    ((l.map (renderTable nm)).flatten).filter isImageEv = [] := by
  apply filter_flatten_nil
  intro x hx
  obtain ⟨e, _, rfl⟩ := List.mem_map.mp hx
  rfl

theorem tab1_file (env : Env) (f : UploadedFile) :
    (tab1Run env f).1 = { f with pos := f.bytes.length } := by
  simp only [tab1Run]
  cases h : extractTextCore env (f.bytes.drop f.pos) with
  | ok t => rw [extract_text_ok env f t h]
  | error e => rw [extract_text_err env f e h]

theorem tab2_file (env : Env) (f : UploadedFile) :
    (tab2Run env f).1 = { f with pos := f.bytes.length } := by
  simp only [tab2Run]
  cases h : extractImagesCore env f.bytes with
  | ok l => rw [extract_images_seek_ok env f l h]
  | error e => rw [extract_images_seek_err env f e h]

theorem tab3_file (env : Env) (f : UploadedFile) :
    (tab3Run env f).1 = { f with pos := f.bytes.length } := by
  simp only [tab3Run]
  cases h : extractTablesCore env f.bytes with
  | ok l => rw [extract_tables_seek_ok env f l h]
  | error e => rw [extract_tables_seek_err env f e h]

theorem tab1_filter_cohere (env : Env) (f : UploadedFile) :
    ((tab1Run env f).2).filter isCohere = [] := by
  simp only [tab1Run]
  cases h : extractTextCore env (f.bytes.drop f.pos) with
  | ok t =>
      rw [extract_text_ok env f t h]
      cases ht : t == "" <;> simp [ht, isCohere]
  | error e =>
      rw [extract_text_err env f e h]
      rfl

theorem tab2_filter_cohere (env : Env) (f : UploadedFile) :
    ((tab2Run env f).2).filter isCohere = [] := by
  simp only [tab2Run]
  cases h : extractImagesCore env f.bytes with
  | ok l =>
      rw [extract_images_seek_ok env f l h]
      cases l with
      | nil => rfl
      | cons pr l => simp [isCohere, renderImage, renderImages_filter_cohere]
  | error e =>
      rw [extract_images_seek_err env f e h]
      rfl

theorem tab3_filter_cohere (env : Env) (f : UploadedFile) :
    ((tab3Run env f).2).filter isCohere = [] := by
  simp only [tab3Run]
  cases h : extractTablesCore env f.bytes with
  | ok l =>
      rw [extract_tables_seek_ok env f l h]
      cases l with
      | nil => rfl
      | cons e l => simp [isCohere, renderTable, renderTables_filter_cohere]
  | error e =>
      rw [extract_tables_seek_err env f e h]
      rfl

theorem tab4_filter_cohere (env : Env) (f : UploadedFile) (key : String) :
    ((tab4Run env f key).2).filter isCohere =
      (if key == "" then [] else
        match extractTextCore env f.bytes with
        | .ok t => if t == "" then [] else [Ev.cohereCall key t]
        | .error _ => []) := by
  simp only [tab4Run]
  cases hk : key == ""
  · simp only [hk, Bool.false_eq_true, if_neg, not_false_eq_true, reduceIte]
    cases h : extractTextCore env f.bytes with
    | ok t =>
        rw [extract_text_seek_ok env f t h]
        cases ht : t == ""
        · unfold get_cohere_summary
          cases hc : env.cohereSummarize key t <;> simp [hc, ht, isCohere]
        · simp [ht, isCohere]
    | error e =>
        rw [extract_text_seek_err env f e h]
        rfl
  · simp [hk, isCohere]

/-- C3: the outbound Cohere call happens iff the api key is a non-empty
string and the (second) text extraction returns non-empty text: the
calls in the trace are exactly `[cohereCall key t]` in that case and
none otherwise; and with the key omitted, the prompt message is shown. -/
theorem C3_cohere_call_iff (env : Env) (key nm : String) (bs : List Nat) :
    ((main env key (some (nm, bs))).filter isCohere =
      (if key == "" then [] else
        match extractTextCore env bs with
        | .ok t => if t == "" then [] else [Ev.cohereCall key t]
        | .error _ => [])) ∧
    (key = "" →
      Ev.uiInfo "Enter a Cohere API key in the sidebar to generate a summary." ∈
        main env key (some (nm, bs))) := by
  constructor
  · unfold main
    simp only [List.filter_append, tab1_filter_cohere, tab2_filter_cohere,
      tab3_filter_cohere, tab1_file, tab2_file, tab3_file, tab4_filter_cohere,
      List.nil_append]
  · intro hk
    subst hk
    unfold main
    simp [tab4Run]

/-- C3 witness: with the key omitted no call appears and the prompt is
shown; the `key = ""` hypothesis of the second conjunct is discharged at
`""`. -/
theorem C3_cohere_call_iff_witness :
    ((main envW "" (some ("doc.pdf", [0]))).filter isCohere = []) ∧
    Ev.uiInfo "Enter a Cohere API key in the sidebar to generate a summary." ∈
      main envW "" (some ("doc.pdf", [0])) := by
  refine ⟨?_, (C3_cohere_call_iff envW "" "doc.pdf" [0]).2 rfl⟩
  have h := (C3_cohere_call_iff envW "" "doc.pdf" [0]).1
  simpa using h

/-! ### Cursor-event lemmas for the seek discipline -/

theorem tab1_filter_cursor (env : Env) (f : UploadedFile) :
    ((tab1Run env f).2).filter isCursorEv = [Ev.passRead PassKind.text f.pos] := by
  simp only [tab1Run]
  cases h : extractTextCore env (f.bytes.drop f.pos) with
  | ok t =>
      rw [extract_text_ok env f t h]
      cases ht : t == "" <;> simp [ht, isCursorEv]
  | error e =>
      rw [extract_text_err env f e h]
      rfl

theorem tab2_filter_cursor (env : Env) (f : UploadedFile) :
    ((tab2Run env f).2).filter isCursorEv =
      [Ev.seek 0, Ev.passRead PassKind.images 0] := by
  simp only [tab2Run]
  cases h : extractImagesCore env f.bytes with
  | ok l =>
      rw [extract_images_seek_ok env f l h]
      cases l with
      | nil => rfl
      | cons pr l => simp [isCursorEv, renderImage, renderImages_filter_cursor]
  | error e =>
      rw [extract_images_seek_err env f e h]
      rfl

theorem tab3_filter_cursor (env : Env) (f : UploadedFile) :
    ((tab3Run env f).2).filter isCursorEv =
      [Ev.seek 0, Ev.passRead PassKind.tables 0] := by
  simp only [tab3Run]
  cases h : extractTablesCore env f.bytes with
  | ok l =>
      rw [extract_tables_seek_ok env f l h]
      cases l with
      | nil => rfl
      | cons e l => simp [isCursorEv, renderTable, renderTables_filter_cursor]
  | error e =>
      rw [extract_tables_seek_err env f e h]
      rfl

theorem tab4_filter_cursor (env : Env) (f : UploadedFile) (key : String) :
    ((tab4Run env f key).2).filter isCursorEv =
      (if key == "" then [] else [Ev.seek 0, Ev.passRead PassKind.text 0]) := by
  simp only [tab4Run]
  cases hk : key == ""
  · simp only [hk, Bool.false_eq_true, if_neg, not_false_eq_true, reduceIte]
    cases h : extractTextCore env f.bytes with
    | ok t =>
        rw [extract_text_seek_ok env f t h]
        cases ht : t == ""
        · unfold get_cohere_summary
          cases hc : env.cohereSummarize key t <;> simp [hc, ht, isCursorEv]
        · simp [ht, isCursorEv]
    | error e =>
        rw [extract_text_seek_err env f e h]
        rfl
  · simp [hk, isCursorEv]

/-- C7: in every run, the trace of cursor operations is exactly: the
text pass reading at position 0, then `seek(0)` immediately before the
image pass (which therefore reads at 0), then `seek(0)` immediately
before the table pass, and — only when the summary branch runs — a final
`seek(0)` immediately before the summarization text pass.  So every pass
after the first is preceded by an explicit reset to 0, and every pass
reads the bytes from the beginning. -/
theorem C7_seek_discipline (env : Env) (key nm : String) (bs : List Nat) :
    (main env key (some (nm, bs))).filter isCursorEv =
      [Ev.passRead PassKind.text 0, Ev.seek 0, Ev.passRead PassKind.images 0,
       Ev.seek 0, Ev.passRead PassKind.tables 0] ++
      (if key == "" then [] else [Ev.seek 0, Ev.passRead PassKind.text 0]) := by
  unfold main
  simp only [List.filter_append, tab1_filter_cursor, tab2_filter_cursor,
    tab3_filter_cursor, tab1_file, tab2_file, tab3_file, tab4_filter_cursor]
  cases hk : key == "" <;> simp [hk]

/-! ### Empty-result lemmas: no images / no tables -/

theorem imgLoop_empty (env : Env) (doc : PdfDoc) (ps : List Page)
    (h : ∀ p ∈ ps, p.get_images = .ok []) :
    ∀ pn acc, imgLoop env doc ps pn acc = .ok acc := by
  induction ps with
  | nil => intro pn acc; rfl
  | cons p ps ih =>
      intro pn acc
      have hp : p.get_images = .ok [] := h p (by simp)
      simp only [imgLoop, hp]
      exact ih (fun q hq => h q (by simp [hq])) (pn + 1) acc

theorem extractImagesCore_empty (env : Env) (bs : List Nat) (doc : PdfDoc)
    (hopen : env.fitzOpen bs = .ok doc)
    (h : ∀ p ∈ doc.pages, p.get_images = .ok []) :
    extractImagesCore env bs = .ok [] := by
  simp only [extractImagesCore, hopen]
  exact imgLoop_empty env doc doc.pages h 0 []

theorem tabLoop_empty (ps : List Page)
    (h : ∀ p ∈ ps, p.find_tables = .ok []) :
    ∀ pn acc, tabLoop ps pn acc = .ok acc := by
  induction ps with
  | nil => intro pn acc; rfl
  | cons p ps ih =>
      intro pn acc
      have hp : p.find_tables = .ok [] := h p (by simp)
      simp only [tabLoop, hp, pageEntries, pageEntriesGo, List.append_nil]
      exact ih (fun q hq => h q (by simp [hq])) (pn + 1) acc

theorem extractTablesCore_empty (env : Env) (bs : List Nat) (doc : PdfDoc)
    (hopen : env.fitzOpen bs = .ok doc)
    (h : ∀ p ∈ doc.pages, p.find_tables = .ok []) :
    extractTablesCore env bs = .ok [] := by
  simp only [extractTablesCore, hopen]
  exact tabLoop_empty doc.pages h 0 []

theorem tab2_trace_noimages (env : Env) (f : UploadedFile)
    (h : extractImagesCore env f.bytes = .ok []) :
    (tab2Run env f).2 =
      [Ev.uiHeader "Extracted Images", Ev.seek 0, Ev.passRead PassKind.images 0,
       Ev.uiInfo "No images found in the PDF."] := by
  simp only [tab2Run]
  rw [extract_images_seek_ok env f [] h]
  rfl

theorem tab3_trace_notables (env : Env) (f : UploadedFile)
    (h : extractTablesCore env f.bytes = .ok []) :
    (tab3Run env f).2 =
      [Ev.uiHeader "Extracted Tables", Ev.seek 0, Ev.passRead PassKind.tables 0,
       Ev.uiInfo "No tables found in the PDF. Table detection may not work on all PDF types.",
       Ev.uiWrite "For complex tables, you might need to use alternative methods."] := by
  simp only [tab3Run]
  rw [extract_tables_seek_ok env f [] h]
  rfl

theorem tab1_filter_image (env : Env) (f : UploadedFile) :
    ((tab1Run env f).2).filter isImageEv = [] := by
  simp only [tab1Run]
  cases h : extractTextCore env (f.bytes.drop f.pos) with
  | ok t =>
      rw [extract_text_ok env f t h]
      cases ht : t == "" <;> simp [ht, isImageEv]
  | error e =>
      rw [extract_text_err env f e h]
      rfl

theorem tab3_filter_image (env : Env) (f : UploadedFile) :
    ((tab3Run env f).2).filter isImageEv = [] := by
  simp only [tab3Run]
  cases h : extractTablesCore env f.bytes with
  | ok l =>
      rw [extract_tables_seek_ok env f l h]
      cases l with
      | nil => rfl
      | cons e l => simp [isImageEv, renderTable, renderTables_filter_image]
  | error e =>
      rw [extract_tables_seek_err env f e h]
      rfl

theorem tab4_filter_image (env : Env) (f : UploadedFile) (key : String) :
    ((tab4Run env f key).2).filter isImageEv = [] := by
  simp only [tab4Run]
  cases hk : key == ""
  · simp only [hk, Bool.false_eq_true, if_neg, not_false_eq_true, reduceIte]
    cases h : extractTextCore env f.bytes with
    | ok t =>
        rw [extract_text_seek_ok env f t h]
        cases ht : t == ""
        · unfold get_cohere_summary
          cases hc : env.cohereSummarize key t <;> simp [hc, ht, isImageEv]
        · simp [ht, isImageEv]
    | error e =>
        rw [extract_text_seek_err env f e h]
        rfl
  · simp [hk, isImageEv]

theorem tab2_filter_image_noimages (env : Env) (f : UploadedFile)
    (h : extractImagesCore env f.bytes = .ok []) :
    ((tab2Run env f).2).filter isImageEv = [] := by
  rw [tab2_trace_noimages env f h]
  rfl

theorem mem_main_of_tab2 (env : Env) (key nm : String) (bs : List Nat) (ev : Ev) :
    ev ∈ (tab2Run env (tab1Run env ⟨nm, bs, 0⟩).1).2 →
    ev ∈ main env key (some (nm, bs)) := by
  intro h
  unfold main
  simp only [List.mem_append]
  tauto

theorem mem_main_of_tab3 (env : Env) (key nm : String) (bs : List Nat) (ev : Ev) :
    ev ∈ (tab3Run env (tab2Run env (tab1Run env ⟨nm, bs, 0⟩).1).1).2 →
    ev ∈ main env key (some (nm, bs)) := by
  intro h
  unfold main
  simp only [List.mem_append]
  tauto

/-- C5: for a document in which no page has any embedded images (every
`get_images` call succeeds with the empty list), `extract_images_from_pdf`
returns the empty list, the run's trace shows the "No images found in
the PDF." info message, and no image widget appears anywhere in the
trace. -/
theorem C5_no_images (env : Env) (key nm : String) (bs : List Nat) (doc : PdfDoc)
    (hopen : env.fitzOpen bs = .ok doc)
    (hno : ∀ p ∈ doc.pages, p.get_images = .ok []) :
    (extract_images_from_pdf env ⟨nm, bs, 0⟩).2.2 = [] ∧
    Ev.uiInfo "No images found in the PDF." ∈ main env key (some (nm, bs)) ∧
    (main env key (some (nm, bs))).filter isImageEv = [] := by
  have hcore : extractImagesCore env bs = .ok [] :=
    extractImagesCore_empty env bs doc hopen hno
  refine ⟨?_, ?_, ?_⟩
  · have h := extract_images_ok env ⟨nm, bs, 0⟩ [] (by simpa using hcore)
    simp [h]
  · apply mem_main_of_tab2
    rw [tab2_trace_noimages]
    · simp
    · rw [tab1_file]
      exact hcore
  · unfold main
    simp only [List.filter_append, tab1_filter_image, tab3_filter_image,
      tab4_filter_image]
    rw [tab2_filter_image_noimages]
    · simp
    · rw [tab1_file]
      exact hcore

/-- C5 witness: a document whose single page has no images. -/
theorem C5_no_images_witness :
    (extract_images_from_pdf envEmptyW ⟨"doc.pdf", [0], 0⟩).2.2 = [] ∧
    Ev.uiInfo "No images found in the PDF." ∈ main envEmptyW "" (some ("doc.pdf", [0])) ∧
    (main envEmptyW "" (some ("doc.pdf", [0]))).filter isImageEv = [] :=
  C5_no_images envEmptyW "" "doc.pdf" [0] docEmptyW rfl
    (fun p hp => by
      rcases List.mem_singleton.mp hp with rfl
      rfl)

/-- C6: for a document in which table detection succeeds with no tables
on every page, `extract_tables_from_pdf_pymupdf` returns the empty list
and the run's trace shows the fallback messages about no tables being
found. -/
theorem C6_no_tables (env : Env) (key nm : String) (bs : List Nat) (doc : PdfDoc)
    (hopen : env.fitzOpen bs = .ok doc)
    (hno : ∀ p ∈ doc.pages, p.find_tables = .ok []) :
    (extract_tables_from_pdf_pymupdf env ⟨nm, bs, 0⟩).2.2 = [] ∧
    Ev.uiInfo "No tables found in the PDF. Table detection may not work on all PDF types." ∈
      main env key (some (nm, bs)) ∧
    Ev.uiWrite "For complex tables, you might need to use alternative methods." ∈
      main env key (some (nm, bs)) := by
  have hcore : extractTablesCore env bs = .ok [] :=
    extractTablesCore_empty env bs doc hopen hno
  refine ⟨?_, ?_, ?_⟩
  · have h := extract_tables_ok env ⟨nm, bs, 0⟩ [] (by simpa using hcore)
    simp [h]
  · apply mem_main_of_tab3
    rw [tab3_trace_notables]
    · simp
    · rw [tab2_file, tab1_file]
      exact hcore
  · apply mem_main_of_tab3
    rw [tab3_trace_notables]
    · simp
    · rw [tab2_file, tab1_file]
      exact hcore

/-- C6 witness: a document whose single page has no detectable tables. -/
theorem C6_no_tables_witness :
    (extract_tables_from_pdf_pymupdf envEmptyW ⟨"doc.pdf", [0], 0⟩).2.2 = [] ∧
    Ev.uiInfo "No tables found in the PDF. Table detection may not work on all PDF types." ∈
      main envEmptyW "" (some ("doc.pdf", [0])) ∧
    Ev.uiWrite "For complex tables, you might need to use alternative methods." ∈
      main envEmptyW "" (some ("doc.pdf", [0])) :=
  C6_no_tables envEmptyW "" "doc.pdf" [0] docEmptyW rfl
    (fun p hp => by
      rcases List.mem_singleton.mp hp with rfl
      rfl)

/-! ### Inversion of the table extraction -/

theorem extract_images_err (env : Env) (f : UploadedFile) (e : String)
    (h : extractImagesCore env (f.bytes.drop f.pos) = .error e) :
    extract_images_from_pdf env f =
      ({ f with pos := f.bytes.length },
       [Ev.passRead PassKind.images f.pos, Ev.uiError ("Error extracting images: " ++ e)],
       []) := by
  unfold extract_images_from_pdf fileRead
  simp [h]

theorem extract_tables_err (env : Env) (f : UploadedFile) (e : String)
    (h : extractTablesCore env (f.bytes.drop f.pos) = .error e) :
    extract_tables_from_pdf_pymupdf env f =
      ({ f with pos := f.bytes.length },
       [Ev.passRead PassKind.tables f.pos,
        Ev.uiError ("Error extracting tables with PyMuPDF: " ++ e)],
       []) := by
  unfold extract_tables_from_pdf_pymupdf fileRead
  simp [h]

theorem pageEntriesGo_mem (pn : Nat) :
    ∀ (ts : List PdfTable) (i : Nat) (e : TableEntry),
      e ∈ pageEntriesGo pn ts i →
      ∃ j t, ts.get? j = some t ∧ tableToEntry (pn + 1) (i + j + 1) t = some e := by
  intro ts
  induction ts with
  | nil => intro i e h; simp [pageEntriesGo] at h
  | cons t ts ih =>
      intro i e h
      cases hte : tableToEntry (pn + 1) (i + 1) t with
      | some e2 =>
          simp only [pageEntriesGo, hte] at h
          rcases List.mem_cons.mp h with rfl | h2
          · exact ⟨0, t, rfl, by simpa using hte⟩
          · obtain ⟨j, t2, hg, hte2⟩ := ih (i + 1) e h2
            refine ⟨j + 1, t2, by simpa using hg, ?_⟩
            have harith : i + 1 + j + 1 = i + (j + 1) + 1 := by omega
            rw [harith] at hte2
            exact hte2
      | none =>
          simp only [pageEntriesGo, hte] at h
          obtain ⟨j, t2, hg, hte2⟩ := ih (i + 1) e h
          refine ⟨j + 1, t2, by simpa using hg, ?_⟩
          have harith : i + 1 + j + 1 = i + (j + 1) + 1 := by omega
          rw [harith] at hte2
          exact hte2

theorem tabLoop_ok_mem :
    ∀ (ps : List Page) (pn : Nat) (acc res : List TableEntry),
      tabLoop ps pn acc = .ok res → ∀ e ∈ res,
      e ∈ acc ∨
        ∃ k p tabs, ps.get? k = some p ∧ p.find_tables = .ok tabs ∧
          e ∈ pageEntries (pn + k) tabs := by
  intro ps
  induction ps with
  | nil =>
      intro pn acc res h e he
      simp only [tabLoop] at h
      cases h
      exact Or.inl he
  | cons p ps ih =>
      intro pn acc res h e he
      cases hf : p.find_tables with
      | error er => simp [tabLoop, hf] at h
      | ok tabs =>
          simp only [tabLoop, hf] at h
          rcases ih (pn + 1) _ res h e he with hacc | ⟨k, p2, tabs2, hg, hft, hmem⟩
          · rcases List.mem_append.mp hacc with h1 | h2
            · exact Or.inl h1
            · exact Or.inr ⟨0, p, tabs, rfl, hf, by simpa using h2⟩
          · refine Or.inr ⟨k + 1, p2, tabs2, by simpa using hg, hft, ?_⟩
            have harith : pn + 1 + k = pn + (k + 1) := by omega
            rw [harith] at hmem
            exact hmem

theorem extract_tables_mem (env : Env) (f : UploadedFile) (e : TableEntry)
    (h : e ∈ (extract_tables_from_pdf_pymupdf env f).2.2) :
    ∃ doc k p tabs j t,
      env.fitzOpen (f.bytes.drop f.pos) = .ok doc ∧
      doc.pages.get? k = some p ∧
      p.find_tables = .ok tabs ∧
      tabs.get? j = some t ∧
      tableToEntry (k + 1) (j + 1) t = some e := by
  cases hres : extractTablesCore env (f.bytes.drop f.pos) with
  | error er =>
      rw [extract_tables_err env f er hres] at h
      simp at h
  | ok l =>
      rw [extract_tables_ok env f l hres] at h
      simp only at h
      unfold extractTablesCore at hres
      cases hopen : env.fitzOpen (f.bytes.drop f.pos) with
      | error er => rw [hopen] at hres; cases hres
      | ok doc =>
          rw [hopen] at hres
          rcases tabLoop_ok_mem doc.pages 0 [] l hres e h with habs | ⟨k, p, tabs, hg, hft, hmem⟩
          · simp at habs
          · unfold pageEntries at hmem
            obtain ⟨j, t, hj, hte⟩ := pageEntriesGo_mem (0 + k) tabs 0 e hmem
            refine ⟨doc, k, p, tabs, j, t, rfl, hg, hft, hj, ?_⟩
            simpa using hte

theorem buildRowsData_row_length (t : PdfTable) :
    ∀ r ∈ buildRowsData t, r.length = t.cols := by
  intro r hr
  unfold buildRowsData at hr
  obtain ⟨idx, _, rfl⟩ := List.mem_map.mp hr
  simp

theorem tableToEntry_fields (p n : Nat) (t : PdfTable) (e : TableEntry)
    (h : tableToEntry p n t = some e) :
    e.page = p ∧ e.table_number = n ∧
    e.dataframe.columns.length = t.cols ∧
    (∀ r ∈ e.dataframe.rows, r.length = t.cols) := by
  unfold tableToEntry at h
  cases hg : buildRowsData t with
  | nil => rw [hg] at h; cases h
  | cons r0 rest =>
      rw [hg] at h
      have hlen : ∀ r ∈ r0 :: rest, r.length = t.cols := by
        rw [← hg]; exact buildRowsData_row_length t
      cases hcond : headerCond r0 <;> simp only [hcond] at h
      · simp only [Bool.false_eq_true, if_neg, not_false_eq_true, reduceIte,
          Option.some.injEq] at h
        subst h
        refine ⟨rfl, rfl, ?_, ?_⟩
        · simp [genericCols, hlen r0 (by simp)]
        · exact hlen
      · simp only [if_pos, reduceIte, Option.some.injEq] at h
        subst h
        refine ⟨rfl, rfl, hlen r0 (by simp), ?_⟩
        intro r hr
        exact hlen r (by simp [hr])

/-- C8: every element of the list returned by
`extract_tables_from_pdf_pymupdf` records a 1-based page number and a
1-based per-page table index: the document page at index `page - 1`
exists, its `find_tables` result has the detected table at index
`table_number - 1`, and the entry's dataframe is built from that table's
cell grid (by `tableToEntry`). -/
theorem C8_entries_shape (env : Env) (f : UploadedFile) (e : TableEntry)
    (h : e ∈ (extract_tables_from_pdf_pymupdf env f).2.2) :
    1 ≤ e.page ∧ 1 ≤ e.table_number ∧
    ∃ doc pg tabs t,
      env.fitzOpen (f.bytes.drop f.pos) = .ok doc ∧
      doc.pages.get? (e.page - 1) = some pg ∧
      pg.find_tables = .ok tabs ∧
      tabs.get? (e.table_number - 1) = some t ∧
      tableToEntry e.page e.table_number t = some e := by
  obtain ⟨doc, k, p, tabs, j, t, hopen, hg, hft, hj, hte⟩ := extract_tables_mem env f e h
  have hfields := tableToEntry_fields _ _ _ _ hte
  have hpage : e.page = k + 1 := hfields.1
  have htn : e.table_number = j + 1 := hfields.2.1
  refine ⟨by omega, by omega, doc, p, tabs, t, hopen, ?_, hft, ?_, ?_⟩
  · rw [hpage]; simpa using hg
  · rw [htn]; simpa using hj
  · rw [hpage, htn]; exact hte

/-- C8 witness: the third detected table of page 1 of the sample
document yields the entry with page 1 and table number 3. -/
theorem C8_entries_shape_witness :
    1 ≤ (TableEntry.mk 1 3 ⟨["Column 1", "Column 2"], [[" ", "x"]]⟩).page ∧
    1 ≤ (TableEntry.mk 1 3 ⟨["Column 1", "Column 2"], [[" ", "x"]]⟩).table_number ∧
    ∃ doc pg tabs t,
      envW.fitzOpen (fileW.bytes.drop fileW.pos) = .ok doc ∧
      doc.pages.get? ((TableEntry.mk 1 3 ⟨["Column 1", "Column 2"], [[" ", "x"]]⟩).page - 1) = some pg ∧
      pg.find_tables = .ok tabs ∧
      tabs.get? ((TableEntry.mk 1 3 ⟨["Column 1", "Column 2"], [[" ", "x"]]⟩).table_number - 1) = some t ∧
      tableToEntry (TableEntry.mk 1 3 ⟨["Column 1", "Column 2"], [[" ", "x"]]⟩).page
        (TableEntry.mk 1 3 ⟨["Column 1", "Column 2"], [[" ", "x"]]⟩).table_number t =
        some (TableEntry.mk 1 3 ⟨["Column 1", "Column 2"], [[" ", "x"]]⟩) :=
  C8_entries_shape envW fileW (TableEntry.mk 1 3 ⟨["Column 1", "Column 2"], [[" ", "x"]]⟩)
    (by decide)

/-! ### The header heuristic -/

theorem pyStrip_empty : pyStrip "" = "" := rfl

theorem headerCond_iff (r0 : List String) :
    headerCond r0 = true ↔ ∀ c ∈ r0, pyStrip c ≠ "" := by
  unfold headerCond
  rw [List.all_eq_true]
  constructor
  · intro h c hc
    have := h c hc
    simp only [Bool.and_eq_true, Bool.not_eq_true', beq_eq_false_iff_ne, ne_eq] at this
    exact this.2
  · intro h c hc
    have hs := h c hc
    have hc0 : c ≠ "" := by
      intro hce
      exact hs (by rw [hce]; rfl)
    simp only [Bool.and_eq_true, Bool.not_eq_true', beq_eq_false_iff_ne, ne_eq]
    exact ⟨hc0, hs⟩

/-- C9: the per-table body applies exactly the header heuristic: with a
non-empty grid, if every cell of the first row is non-empty after
stripping whitespace then the first row becomes the column names and the
remaining rows the data, otherwise the columns are the generic
`"Column {i}"` names and all rows are data; with zero grid rows the
table contributes no entry (and the enclosing loop just advances the
table index). -/
theorem C9_header_heuristic (p n : Nat) (t : PdfTable) :
    (tableToEntry p n t =
      match buildRowsData t with
      | [] => none
      | r0 :: rest =>
        if ∀ c ∈ r0, pyStrip c ≠ "" then some ⟨p, n, ⟨r0, rest⟩⟩
        else some ⟨p, n, ⟨genericCols r0.length, r0 :: rest⟩⟩) ∧
    (buildRowsData t = [] ↔ t.rows = 0) ∧
    (t.rows = 0 → ∀ pn ts i, pageEntriesGo pn (t :: ts) i = pageEntriesGo pn ts (i + 1)) := by
  refine ⟨?_, ?_, ?_⟩
  · unfold tableToEntry
    cases hg : buildRowsData t with
    | nil => rfl
    | cons r0 rest =>
        by_cases hc : ∀ c ∈ r0, pyStrip c ≠ ""
        · have hcond : headerCond r0 = true := (headerCond_iff r0).mpr hc
          simp only [hcond]
          rw [if_pos hc]
          simp
        · have hcond : headerCond r0 = false := by
            cases hb : headerCond r0
            · rfl
            · exact absurd ((headerCond_iff r0).mp hb) hc
          simp only [hcond]
          rw [if_neg hc]
          simp
  · unfold buildRowsData
    simp [List.range_eq_nil]
  · intro h0 pn ts i
    have hte : tableToEntry (pn + 1) (i + 1) t = none := by
      unfold tableToEntry buildRowsData
      rw [h0]
      rfl
    simp [pageEntriesGo, hte]

/-- C9 witness: the blank-first-row table takes the generic branch, the
fully non-blank first row becomes the header, and the zero-row table is
skipped by the loop. -/
theorem C9_header_heuristic_witness :
    tableToEntry 1 3 tGenericW =
      some ⟨1, 3, ⟨genericCols ([" ", "x"] : List String).length, [[" ", "x"]]⟩⟩ ∧
    tableToEntry 1 1 tCommaW = some ⟨1, 1, ⟨["a", "b"], [["1,5", "x\"y"]]⟩⟩ ∧
    pageEntriesGo 0 [tZeroW] 0 = pageEntriesGo 0 [] 1 := by
  refine ⟨?_, ?_, (C9_header_heuristic 1 1 tZeroW).2.2 rfl 0 [] 0⟩
  · have h := (C9_header_heuristic 1 3 tGenericW).1
    rw [h]
    decide
  · have h := (C9_header_heuristic 1 1 tCommaW).1
    rw [h]
    decide

/-! ### Image captions and document order -/

theorem imgLoopPage_ok_fst (env : Env) (doc : PdfDoc) (pn : Nat) :
    ∀ (l : List Img) (k : Nat) (acc res : List (String × PILImage)),
      imgLoopPage env doc pn l k acc = .ok res →
      res.map Prod.fst = acc.map Prod.fst ++ capsFrom pn k l.length := by
  intro l
  induction l with
  | nil =>
      intro k acc res h
      cases h
      simp [capsFrom]
  | cons im rest ih =>
      intro k acc res h
      cases hx : doc.extract_image im.xref with
      | error e => simp [imgLoopPage, hx] at h
      | ok ib =>
          cases hi : env.imageOpen ib with
          | error e => simp [imgLoopPage, hx, hi] at h
          | ok pil =>
              simp only [imgLoopPage, hx, hi] at h
              have h2 := ih (k + 1) (acc ++ [(s!"Page {pn + 1}, Image {k + 1}", pil)]) res h
              rw [h2]
              simp [capsFrom]

theorem imgLoop_ok_fst (env : Env) (doc : PdfDoc) :
    ∀ (ps : List Page) (pn : Nat) (acc res : List (String × PILImage)),
      imgLoop env doc ps pn acc = .ok res →
      res.map Prod.fst = acc.map Prod.fst ++ capList ps pn := by
  intro ps
  induction ps with
  | nil =>
      intro pn acc res h
      cases h
      simp [capList]
  | cons p ps ih =>
      intro pn acc res h
      cases hgi : p.get_images with
      | error e => simp [imgLoop, hgi] at h
      | ok l =>
          cases hip : imgLoopPage env doc pn l 0 acc with
          | error e => simp [imgLoop, hgi, hip] at h
          | ok acc2 =>
              simp only [imgLoop, hgi, hip] at h
              have h2 := ih (pn + 1) acc2 res h
              have h1 := imgLoopPage_ok_fst env doc pn l 0 acc acc2 hip
              rw [h2, h1]
              simp [capList, hgi]

/-- C10: when the image extraction succeeds, the returned list pairs
each image with the caption `"Page {p}, Image {k}"`, `p` being the
1-based page number and `k` the 1-based index of the image on its page,
and the captions run in document order (pages ascending, and per-page
indices ascending within each page), as described by `capList`. -/
theorem C10_captions (env : Env) (f : UploadedFile) (doc : PdfDoc)
    (imgs : List (String × PILImage))
    (hopen : env.fitzOpen (f.bytes.drop f.pos) = .ok doc)
    (hok : extractImagesCore env (f.bytes.drop f.pos) = .ok imgs) :
    (extract_images_from_pdf env f).2.2 = imgs ∧
    imgs.map Prod.fst = capList doc.pages 0 := by
  constructor
  · rw [extract_images_ok env f imgs hok]
  · unfold extractImagesCore at hok
    rw [hopen] at hok
    have h := imgLoop_ok_fst env doc doc.pages 0 [] imgs hok
    simpa using h

/-- C10 witness: the sample document's two pages yield the captions
`"Page 1, Image 1"` and `"Page 2, Image 1"` in document order. -/
theorem C10_captions_witness :
    (extract_images_from_pdf envW fileW).2.2 =
      [("Page 1, Image 1", PILImage.mk 1), ("Page 2, Image 1", PILImage.mk 1)] ∧
    ([("Page 1, Image 1", PILImage.mk 1), ("Page 2, Image 1", PILImage.mk 1)] :
        List (String × PILImage)).map Prod.fst = capList docW.pages 0 :=
  C10_captions envW fileW docW
    [("Page 1, Image 1", PILImage.mk 1), ("Page 2, Image 1", PILImage.mk 1)]
    rfl rfl

/-! ### CSV round trip: the reader inverts minimal-quoting serialization -/

theorem takeUnquoted_exact (f : List Char) :
    ∀ rest : List Char,
      (∀ c ∈ f, ¬(c = ',' ∨ c = '\n')) →
      (rest = [] ∨ ∃ r, rest = ',' :: r ∨ rest = '\n' :: r) →
      takeUnquoted (f ++ rest) = (f, rest) := by
  induction f with
  | nil =>
      intro rest _ hrest
      rcases hrest with rfl | ⟨r, hr | hr⟩
      · rfl
      · subst hr; rfl
      · subst hr; rfl
  | cons c f ih =>
      intro rest hf hrest
      have hc := hf c (by simp)
      push_neg at hc
      have hcb : (c == ',' || c == '\n') = false := by
        simp only [Bool.or_eq_false_iff, beq_eq_false_iff_ne, ne_eq]
        exact hc
      rw [List.cons_append]
      simp only [takeUnquoted, hcb, Bool.false_eq_true, not_false_eq_true, if_neg]
      rw [ih rest (fun x hx => hf x (by simp [hx])) hrest]

theorem takeQuoted_cons_ne (c : Char) (cs : List Char) (h : (c == '"') = false) :
    takeQuoted (c :: cs) = (c :: (takeQuoted cs).1, (takeQuoted cs).2) := by
  rw [takeQuoted.eq_def]
  simp [h]

theorem takeQuoted_exact (f : List Char) :
    ∀ rest : List Char,
      (rest = [] ∨ ∃ r, rest = ',' :: r ∨ rest = '\n' :: r) →
      takeQuoted (escapeInner f ++ '"' :: rest) = (f, rest) := by
  induction f with
  | nil =>
      intro rest hrest
      rcases hrest with rfl | ⟨r, hr | hr⟩
      · rfl
      · subst hr; rfl
      · subst hr; rfl
  | cons c f ih =>
      intro rest hrest
      by_cases hcq : c = '"'
      · subst hcq
        show takeQuoted ('"' :: '"' :: (escapeInner f ++ '"' :: rest)) = ('"' :: f, rest)
        simp only [takeQuoted]
        rw [ih rest hrest]
        rfl
      · have he : escapeInner (c :: f) = c :: escapeInner f := by
          simp [escapeInner, hcq]
        rw [he, List.cons_append]
        have hcb : (c == '"') = false := by
          simp only [beq_eq_false_iff_ne, ne_eq]
          exact hcq
        rw [takeQuoted_cons_ne c _ hcb, ih rest hrest]

theorem parseField_exact (f rest : List Char)
    (hrest : rest = [] ∨ ∃ r, rest = ',' :: r ∨ rest = '\n' :: r) :
    parseField (escapeField f ++ rest) = (f, rest) := by
  unfold escapeField
  cases hq : f.any isCsvSpecial
  · simp only [Bool.false_eq_true, not_false_eq_true, if_neg]
    have hnf : ∀ c ∈ f, ¬(c = ',' ∨ c = '\n') := by
      intro c hcmem
      have hno := List.any_eq_false.mp hq c hcmem
      simp only [isCsvSpecial, Bool.or_eq_true, not_or] at hno
      rintro (rfl | rfl)
      · exact hno.1.1.1 (by simp)
      · exact hno.1.2 (by simp)
    cases f with
    | nil =>
        rcases hrest with rfl | ⟨r, hr | hr⟩
        · rfl
        · subst hr; rfl
        · subst hr; rfl
    | cons c f2 =>
        have hcq : (c == '"') = false := by
          have hno := List.any_eq_false.mp hq c (by simp)
          simp only [isCsvSpecial, Bool.or_eq_true, not_or] at hno
          simp only [beq_eq_false_iff_ne, ne_eq]
          intro heq
          exact hno.1.1.2 (by simp [heq])
        rw [List.cons_append]
        simp only [parseField, hcq, Bool.false_eq_true, not_false_eq_true, if_neg]
        rw [← List.cons_append]
        exact takeUnquoted_exact (c :: f2) rest hnf hrest
  · simp only [if_pos, reduceIte]
    have hshape : ('"' :: (escapeInner f ++ ['"'])) ++ rest =
        '"' :: (escapeInner f ++ '"' :: rest) := by
      simp
    rw [hshape]
    simp only [parseField]
    exact takeQuoted_exact f rest hrest

theorem parseRecord_exact (cells : List (List Char)) :
    ∀ (fuel : Nat) (rest : List Char),
      cells ≠ [] → cells.length ≤ fuel →
      parseRecord fuel (serRow cells ++ '\n' :: rest) = (cells, rest) := by
  induction cells with
  | nil => intro fuel rest h _; exact absurd rfl h
  | cons c cs ih =>
      intro fuel rest _ hlen
      cases fuel with
      | zero => simp at hlen
      | succ fuel =>
          cases cs with
          | nil =>
              have hf := parseField_exact c ('\n' :: rest) (Or.inr ⟨rest, Or.inr rfl⟩)
              show parseRecord (fuel + 1) (escapeField c ++ '\n' :: rest) = ([c], rest)
              simp only [parseRecord, hf]
          | cons c2 cs2 =>
              have hassoc : serRow (c :: c2 :: cs2) ++ '\n' :: rest =
                  escapeField c ++ (',' :: (serRow (c2 :: cs2) ++ '\n' :: rest)) := by
                simp [serRow]
              rw [hassoc]
              have hf := parseField_exact c (',' :: (serRow (c2 :: cs2) ++ '\n' :: rest))
                (Or.inr ⟨_, Or.inl rfl⟩)
              simp only [parseRecord, hf]
              rw [ih fuel rest (by simp)
                (by simp only [List.length_cons] at hlen ⊢; omega)]

theorem serRow_length_ge (cells : List (List Char)) :
    cells.length ≤ (serRow cells).length + 1 := by
  induction cells with
  | nil => simp [serRow]
  | cons c cs ih =>
      cases cs with
      | nil => simp [serRow]
      | cons c2 cs2 =>
          show (c :: c2 :: cs2).length ≤
            (escapeField c ++ ',' :: serRow (c2 :: cs2)).length + 1
          simp only [List.length_cons, List.length_append]
          simp only [List.length_cons] at ih
          omega

theorem serCsv_length_ge (rows : List (List (List Char))) :
    rows.length ≤ (serCsv rows).length := by
  induction rows with
  | nil => simp [serCsv]
  | cons r rs ih =>
      show (r :: rs).length ≤ (serRow r ++ '\n' :: serCsv rs).length
      simp only [List.length_cons, List.length_append]
      omega

theorem parseCsvGo_exact (rows : List (List (List Char))) :
    ∀ fuel : Nat, (∀ r ∈ rows, r ≠ []) → rows.length ≤ fuel →
      parseCsvGo fuel (serCsv rows) = rows := by
  induction rows with
  | nil => intro fuel _ _; cases fuel <;> rfl
  | cons r rs ih =>
      intro fuel hne hlen
      cases fuel with
      | zero => simp at hlen
      | succ fuel =>
          have hlnil : serRow r ++ '\n' :: serCsv rs ≠ [] := by simp
          obtain ⟨a, l2, hal⟩ := List.exists_cons_of_ne_nil hlnil
          show parseCsvGo (fuel + 1) (serRow r ++ '\n' :: serCsv rs) = r :: rs
          rw [hal]
          simp only [parseCsvGo]
          rw [← hal]
          have hrne : r ≠ [] := hne r (by simp)
          have hb : r.length ≤ (serRow r ++ '\n' :: serCsv rs).length + 1 := by
            have h1 := serRow_length_ge r
            simp only [List.length_append, List.length_cons]
            omega
          have hrec := parseRecord_exact r
            ((serRow r ++ '\n' :: serCsv rs).length + 1) (serCsv rs) hrne hb
          rw [hrec]
          show r :: parseCsvGo fuel (serCsv rs) = r :: rs
          rw [ih fuel (fun x hx => hne x (by simp [hx]))
            (by simp only [List.length_cons] at hlen; omega)]

/-- Round trip of the CSV artifact: for a dataframe with at least one
column and no empty row, reading `df.to_csv(index=False)` back gives
exactly the column names followed by the data rows. -/
theorem parseCsv_dfToCsv (df : DataFrame)
    (hc : df.columns ≠ []) (hr : ∀ r ∈ df.rows, r ≠ []) :
    parseCsv (dfToCsv df) = df.columns :: df.rows := by
  unfold parseCsv dfToCsv
  have hne : ∀ r ∈ (df.columns :: df.rows).map (fun r => r.map String.data), r ≠ [] := by
    intro r hrL
    obtain ⟨row, hrow, rfl⟩ := List.mem_map.mp hrL
    simp only [ne_eq, List.map_eq_nil_iff]
    rcases List.mem_cons.mp hrow with rfl | h2
    · exact hc
    · exact hr row h2
  have hdata :
      (String.mk (serCsv ((df.columns :: df.rows).map (fun r => r.map String.data)))).data =
        serCsv ((df.columns :: df.rows).map (fun r => r.map String.data)) := rfl
  rw [hdata]
  have hfl : ((df.columns :: df.rows).map (fun r => r.map String.data)).length ≤
      (serCsv ((df.columns :: df.rows).map (fun r => r.map String.data))).length + 1 := by
    have := serCsv_length_ge ((df.columns :: df.rows).map (fun r => r.map String.data))
    omega
  rw [parseCsvGo_exact _ _ hne hfl]
  simp only [List.map_map]
  have hcomp : (String.mk ∘ String.data) = id := funext (fun s => rfl)
  simp [hcomp]

/-! ### The Tables tab displays and downloads the same dataframe -/

theorem renderImages_filter_dataframe (nm : String) (env : Env) (l : List (String × PILImage)) :
    ((l.map (renderImage nm env)).flatten).filter isDataframeEv = [] := by
  apply filter_flatten_nil
  intro x hx
  obtain ⟨pr, _, rfl⟩ := List.mem_map.mp hx
  rfl

theorem tab1_filter_dataframe (env : Env) (f : UploadedFile) :
    ((tab1Run env f).2).filter isDataframeEv = [] := by
  simp only [tab1Run]
  cases h : extractTextCore env (f.bytes.drop f.pos) with
  | ok t =>
      rw [extract_text_ok env f t h]
      cases ht : t == "" <;> simp [ht, isDataframeEv]
  | error e =>
      rw [extract_text_err env f e h]
      rfl

theorem tab2_filter_dataframe (env : Env) (f : UploadedFile) :
    ((tab2Run env f).2).filter isDataframeEv = [] := by
  simp only [tab2Run]
  cases h : extractImagesCore env f.bytes with
  | ok l =>
      rw [extract_images_seek_ok env f l h]
      cases l with
      | nil => rfl
      | cons pr l => simp [isDataframeEv, renderImage, renderImages_filter_dataframe]
  | error e =>
      rw [extract_images_seek_err env f e h]
      rfl

theorem tab4_filter_dataframe (env : Env) (f : UploadedFile) (key : String) :
    ((tab4Run env f key).2).filter isDataframeEv = [] := by
  simp only [tab4Run]
  cases hk : key == ""
  · simp only [hk, Bool.false_eq_true, if_neg, not_false_eq_true, reduceIte]
    cases h : extractTextCore env f.bytes with
    | ok t =>
        rw [extract_text_seek_ok env f t h]
        cases ht : t == ""
        · unfold get_cohere_summary
          cases hc : env.cohereSummarize key t <;> simp [hc, ht, isDataframeEv]
        · simp [ht, isDataframeEv]
    | error e =>
        rw [extract_text_seek_err env f e h]
        rfl
  · simp [hk, isDataframeEv]

theorem tab3_dataframe_inv (env : Env) (f : UploadedFile) (df : DataFrame)
    (h : Ev.uiDataframe df ∈ (tab3Run env f).2) :
    ∃ e, e ∈ (extract_tables_from_pdf_pymupdf env (fileSeek0 f)).2.2 ∧
      e.dataframe = df := by
  simp only [tab3Run] at h
  cases hres : extractTablesCore env f.bytes with
  | error er =>
      rw [extract_tables_seek_err env f er hres] at h
      simp at h
  | ok l =>
      rw [extract_tables_seek_ok env f l hres] at h
      rw [extract_tables_seek_ok env f l hres]
      cases l with
      | nil => simp at h
      | cons e0 l2 =>
          simp only [List.isEmpty_cons, Bool.false_eq_true, not_false_eq_true,
            if_neg, List.mem_cons, List.mem_append] at h
          rcases h with h | h | (h | h) | h
          · cases h
          · cases h
          · cases h
          · exact absurd h (List.not_mem_nil _)
          · simp only [List.mem_flatten, List.mem_map] at h
            obtain ⟨block, ⟨e, he, rfl⟩, hmem⟩ := h
            simp only [renderTable, List.mem_cons] at hmem
            rcases hmem with h1 | h2 | h3 | h4
            · cases h1
            · exact ⟨e, by simpa using he, by cases h2; rfl⟩
            · cases h3
            · cases h4

theorem tab3_download_of_entry (env : Env) (f : UploadedFile) (e : TableEntry)
    (he : e ∈ (extract_tables_from_pdf_pymupdf env (fileSeek0 f)).2.2) :
    Ev.uiDownload (tableLabel e) (dfToCsv e.dataframe) (tableFname f.name e) ∈
      (tab3Run env f).2 := by
  cases hres : extractTablesCore env f.bytes with
  | error er =>
      rw [extract_tables_seek_err env f er hres] at he
      simp at he
  | ok l =>
      rw [extract_tables_seek_ok env f l hres] at he
      simp only at he
      simp only [tab3Run]
      rw [extract_tables_seek_ok env f l hres]
      have hlne : l.isEmpty = false := by
        cases l with
        | nil => simp at he
        | cons a l2 => rfl
      simp only [hlne, Bool.false_eq_true, not_false_eq_true, if_neg,
        List.mem_cons, List.mem_append]
      refine Or.inr (Or.inr (Or.inr ?_))
      rw [List.mem_flatten]
      refine ⟨renderTable f.name e, List.mem_map_of_mem _ he, ?_⟩
      simp [renderTable]

/-- C4: every dataframe displayed in the Tables tab is paired with a CSV
download whose payload is exactly that same dataframe serialized by
`df.to_csv(index=False)` (modelled by `dfToCsv`), and — for a dataframe
with at least one column, which is what the extraction produces from any
real table — parsing that CSV text yields exactly the displayed column
names followed by the displayed rows. -/
theorem C4_csv_roundtrip (env : Env) (key nm : String) (bs : List Nat) (df : DataFrame)
    (hdf : Ev.uiDataframe df ∈ main env key (some (nm, bs)))
    (hcols : df.columns ≠ []) :
    (∃ label fname,
      Ev.uiDownload label (dfToCsv df) fname ∈ main env key (some (nm, bs))) ∧
    parseCsv (dfToCsv df) = df.columns :: df.rows := by
  unfold main at hdf
  simp only [List.mem_append] at hdf
  have h1 := tab1_filter_dataframe env ⟨nm, bs, 0⟩
  have h2 := tab2_filter_dataframe env (tab1Run env ⟨nm, bs, 0⟩).1
  have h4 := tab4_filter_dataframe env
    (tab3Run env (tab2Run env (tab1Run env ⟨nm, bs, 0⟩).1).1).1 key
  have hnot : ∀ (l : List Ev), l.filter isDataframeEv = [] →
      Ev.uiDataframe df ∉ l := by
    intro l hl hmem
    have : Ev.uiDataframe df ∈ l.filter isDataframeEv :=
      List.mem_filter.mpr ⟨hmem, rfl⟩
    rw [hl] at this
    exact absurd this (List.not_mem_nil _)
  have h3 : Ev.uiDataframe df ∈
      (tab3Run env (tab2Run env (tab1Run env ⟨nm, bs, 0⟩).1).1).2 := by
    rcases hdf with ((h | h) | h) | h
    · exact absurd h (hnot _ h1)
    · exact absurd h (hnot _ h2)
    · exact h
    · exact absurd h (hnot _ h4)
  obtain ⟨e, he, hedf⟩ := tab3_dataframe_inv env _ df h3
  constructor
  · have hmem := tab3_download_of_entry env _ e he
    rw [hedf] at hmem
    have hname : (tab2Run env (tab1Run env (UploadedFile.mk nm bs 0)).1).1.name = nm := by
      rw [tab2_file, tab1_file]
    rw [hname] at hmem
    exact ⟨tableLabel e, tableFname nm e, mem_main_of_tab3 env key nm bs _ hmem⟩
  · subst hedf
    obtain ⟨doc, k, p, tabs, j, t, hopen, hg, hft, hj, hte⟩ :=
      extract_tables_mem env _ e he
    have hfields := tableToEntry_fields _ _ _ _ hte
    apply parseCsv_dfToCsv _ hcols
    intro r hrmem
    have hrlen := hfields.2.2.2 r hrmem
    have hcl := hfields.2.2.1
    intro hrnil
    rw [hrnil] at hrlen
    apply hcols
    apply List.eq_nil_of_length_eq_zero
    simp only [List.length_nil] at hrlen
    omega

/-- C4 witness: the sample table with a comma and a quote in its data
row round-trips through the CSV serialization. -/
theorem C4_csv_roundtrip_witness :
    ((∃ label fname,
      Ev.uiDownload label (dfToCsv (DataFrame.mk ["a", "b"] [["1,5", "x\"y"]])) fname ∈
        main envW "k" (some ("doc.pdf", [0]))) ∧
    parseCsv (dfToCsv (DataFrame.mk ["a", "b"] [["1,5", "x\"y"]])) =
      (DataFrame.mk ["a", "b"] [["1,5", "x\"y"]]).columns ::
        (DataFrame.mk ["a", "b"] [["1,5", "x\"y"]]).rows) :=
  C4_csv_roundtrip envW "k" "doc.pdf" [0] (DataFrame.mk ["a", "b"] [["1,5", "x\"y"]])
    (by decide) (by decide)

end PdfExtractor
